import Mathlib

/-!
Verification development for the pytest-pinterest-demo test harness.

Shallow embedding of the core logic described by the spec:
  * `src/utils/pinterest_api.py` — `APIResponse`, `BaseAPIClient._process_response`,
    `BaseAPIClient._make_request`, `PinterestAPIClient.download_file`, together with
    the urllib3 `Retry` machinery configured in `BaseAPIClient._create_session`;
  * `src/core/base_page.py` — `click`, `fill`, `get_text`, `is_visible_slow`,
    `take_screenshot`;
  * `src/pages/home_page.py` — `HomePage._get_active_search_box`;
  * `src/config/settings.py` — `TimeoutConfig`.

Python values that matter to the claims are embedded explicitly: machine-level
side effects (logging, file writes, actual network traffic) are represented by
explicit result records, and the nondeterminism of the environment (what the
server answers, whether an element becomes visible) by function parameters.
-/

namespace PinterestDemo

/-- Embedded Python/JSON value, as produced by `response.json()` and stored in
`APIResponse.data`.  Only the shapes that the client code itself constructs or
inspects are needed. -/
inductive PyValue where
  | str (s : String)
  | num (n : Int)
  | bool (b : Bool)
  | list (xs : List PyValue)
  | dict (entries : List (String × PyValue))

/-- Embedding of the `requests.Response` object as seen by
`BaseAPIClient._process_response`: the status code, the body text, the reason
phrase, the headers, and the result of attempting `response.json()` on the body
(`none` models a `ValueError` from JSON parsing). -/
structure Response where
  status : Nat
  text : String := ""
  reason : String := ""
  headers : List (String × String) := []
  jsonResult : Option PyValue := none

/-- Embedding of the dataclass `APIResponse` from `src/utils/pinterest_api.py`. -/
structure APIResponse where
  status_code : Nat
  data : Option PyValue := none
  success : Bool := true
  error_message : String := ""
  headers : List (String × String) := []

/-- `APIResponse.is_ok` from the source: `200 <= self.status_code < 300`. -/
def APIResponse.is_ok (r : APIResponse) : Bool :=
  decide (200 ≤ r.status_code) && decide (r.status_code < 300)

/-- `requests.Response.ok`: delegates to `raise_for_status`, which raises
exactly for `400 <= status_code < 600`; hence `ok` is true iff the status code
is outside `[400, 600)`. -/
def Response.ok (r : Response) : Bool :=
  !(decide (400 ≤ r.status) && decide (r.status < 600))

/-- `str(status)[:500]`-style truncation: Python slicing `text[:500]` keeps the
first 500 characters. -/
def pyTruncate (s : String) (n : Nat) : String :=
  String.mk (s.data.take n)

/-- Embedding of `BaseAPIClient._process_response`:

```python
try:
    data = response.json() if response.text else {}
except ValueError:
    data = {"raw_text": response.text[:500]}
return APIResponse(status_code=response.status_code, data=data,
                   success=response.ok,
                   error_message="" if response.ok else response.reason,
                   headers=dict(response.headers))
``` -/
def process_response (r : Response) : APIResponse :=
  let data : PyValue :=
    if r.text = "" then .dict []
    else
      match r.jsonResult with
      | some v => v
      | none => .dict [("raw_text", .str (pyTruncate r.text 500))]
  { status_code := r.status
    data := some data
    success := r.ok
    error_message := if r.ok then "" else r.reason
    headers := r.headers }

/-- The `requests` exceptions distinguished by `_make_request`'s `except`
clauses, in dispatch order: `Timeout`, then `ConnectionError`, then any other
`RequestException`.  Each carries the text `str(e)` of the Python exception. -/
inductive ReqException where
  | timeout (msg : String)
  | connectionError (msg : String)
  | requestException (msg : String)

/-- `str(e)` of the underlying exception. -/
def ReqException.msg : ReqException → String
  | .timeout m => m
  | .connectionError m => m
  | .requestException m => m

/-- The sentinel status code `_make_request` substitutes for each transport
failure class. -/
def ReqException.sentinel : ReqException → Nat
  | .timeout _ => 408
  | .connectionError _ => 503
  | .requestException _ => 500

/-- Embedding of the three `except` branches of `BaseAPIClient._make_request`:
each transport failure is folded into a synthetic `APIResponse`. -/
def excToResponse : ReqException → APIResponse
  | .timeout _ =>
      { status_code := 408, success := false, error_message := "Request timed out" }
  | .connectionError m =>
      { status_code := 503, success := false, error_message := "Connection failed: " ++ m }
  | .requestException m =>
      { status_code := 500, success := false, error_message := m }

/-- Embedding of `BaseAPIClient._make_request`: the session call either yields
a `Response` (normalized by `_process_response`) or raises a
`ReqException` (normalized by the `except` branches).  The function is total:
every outcome of the session call produces an `APIResponse`. -/
def make_request (outcome : Except ReqException Response) : APIResponse :=
  match outcome with
  | .ok r => process_response r
  | .error e => excToResponse e

/-- `BaseAPIClient.MAX_RETRIES`. -/
def MAX_RETRIES : Nat := 3

/-- `BaseAPIClient.RETRY_STATUS_CODES`. -/
def RETRY_STATUS_CODES : List Nat := [429, 500, 502, 503, 504]

/-- `allowed_methods` of the `Retry` strategy built in
`BaseAPIClient._create_session`. -/
def ALLOWED_METHODS : List String := ["GET", "POST", "PUT", "DELETE", "PATCH"]

/-- urllib3 `Retry.is_retry` for the configuration of `_create_session`:
a response is retried when its status is in the `status_forcelist` and the
method is in `allowed_methods`. -/
def is_retry (method : String) (status : Nat) : Bool :=
  RETRY_STATUS_CODES.contains status && ALLOWED_METHODS.contains method

/-- Model of urllib3's `HTTPConnectionPool.urlopen` retry-on-status loop, as
configured by `_create_session` (`total=MAX_RETRIES`,
`status_forcelist=RETRY_STATUS_CODES`, `allowed_methods` as above, and
`raise_on_status` left at its default `True`).

`srv n` is the response the server gives to the `n`-th attempt.  `fuel` is the
remaining `total` budget.  When a retryable status arrives with the budget
exhausted, urllib3 raises `MaxRetryError` with a `ResponseError` cause, which
`requests.adapters.HTTPAdapter.send` converts to
`requests.exceptions.RetryError` — a plain `RequestException` (neither
`Timeout` nor `ConnectionError`).  Returns the number of HTTP attempts made
together with the outcome the session call delivers to the caller. -/
def urlopenLoop (method : String) (srv : Nat → Response) :
    Nat → Nat → Nat × Except ReqException Response
  | 0, attempt =>
    let r := srv attempt
    if is_retry method r.status then
      (attempt + 1,
       .error (.requestException
         ("too many " ++ toString r.status ++ " error responses")))
    else (attempt + 1, .ok r)
  | fuel + 1, attempt =>
    let r := srv attempt
    if is_retry method r.status then
      urlopenLoop method srv fuel (attempt + 1)
    else (attempt + 1, .ok r)

/-- One `session.request(...)` call against server behaviour `srv`: the retry
loop starting from attempt 0 with the full `MAX_RETRIES` budget. -/
def session_request (method : String) (srv : Nat → Response) :
    Nat × Except ReqException Response :=
  urlopenLoop method srv MAX_RETRIES 0

/-- Embedding of `PinterestAPIClient.download_file`.  It issues
`self._session.get(url, stream=True, timeout=30)` on the *same* session whose
adapters carry the retry strategy, then `raise_for_status()` (which raises
exactly for `400 <= status < 600`), then streams chunks to disk; any exception
is caught and turned into `False`.

`srv` is the server behaviour at the download URL; `writeOk` models whether
opening the destination file and writing every chunk succeeds.  Returns the
boolean result together with the number of HTTP attempts the session made. -/
def download_file (srv : Nat → Response) (writeOk : Bool) : Bool × Nat :=
  match session_request "GET" srv with
  | (attempts, .error _) => (false, attempts)
  | (attempts, .ok r) =>
    if 400 ≤ r.status ∧ r.status < 600 then (false, attempts)
    else (writeOk, attempts)

/-- Outcome of `locator.wait_for(state="visible", timeout=...)`: either the
element became visible within the timeout, or the call raised (timeout
expiry or any other Playwright error, carrying its message). -/
inductive WaitOutcome where
  | visible
  | waitError (msg : String)

/-- Embedding of `BasePage.is_visible_slow`: the bounded wait is wrapped in
`try/except Exception`, so the function returns `True` exactly when the wait
succeeded and `False` otherwise, never propagating. The `timeout` argument is
forwarded to the wait, whose result the environment `w` encodes. -/
def is_visible_slow (timeout : Nat) (w : WaitOutcome) : Bool :=
  match w with
  | .visible => true
  | .waitError _ => false

/-- The screenshot path built by `BasePage.take_screenshot`:
`f"screenshots/{name+settings.get_current_timestamp()}.png"`. -/
def screenshot_path (name ts : String) : String :=
  "screenshots/" ++ (name ++ ts) ++ ".png"

/-- Observable effect of one interaction-wrapper call: the value returned or
exception propagated, the screenshot paths whose capture was attempted, and
the log lines emitted. -/
structure ActionEffect where
  result : Except String Unit
  screenshots : List String
  logs : List String

/-- Embedding of `BasePage.click`: log the attempt, run `locator.click`;
on any exception log the failure, attempt one screenshot named
`fail_click_{description}` (stamped by `take_screenshot`), and re-raise the
original exception.  `outcome` is what the underlying `locator.click` does;
`ts` is `settings.get_current_timestamp()` at failure time. -/
def click (description : String) (outcome : Except String Unit) (ts : String) :
    ActionEffect :=
  match outcome with
  | .ok _ =>
    { result := .ok ()
      screenshots := []
      logs := ["🖱️ Clicking on '" ++ description ++ "'"] }
  | .error e =>
    { result := .error e
      screenshots := [screenshot_path ("fail_click_" ++ description) ts]
      logs := ["🖱️ Clicking on '" ++ description ++ "'",
               "❌ Failed to click '" ++ description ++ "': " ++ e] }

/-- Embedding of `BasePage.fill`: logs and calls `locator.fill` with no
`try/except` — a failure propagates unchanged and no screenshot is taken. -/
def fill (text description : String) (outcome : Except String Unit) :
    ActionEffect :=
  match outcome with
  | .ok _ =>
    { result := .ok ()
      screenshots := []
      logs := ["⌨️ Typing '" ++ text ++ "' into '" ++ description ++ "'"] }
  | .error e =>
    { result := .error e
      screenshots := []
      logs := ["⌨️ Typing '" ++ text ++ "' into '" ++ description ++ "'"] }

/-- Embedding of `BasePage.get_text`: reads `locator.text_content() or ""`,
strips it, logs, returns it; no `try/except`, no screenshot.  The first
component is the returned (stripped) text or the propagated exception, the
second the screenshot attempts (always none). -/
def get_text (description : String) (outcome : Except String String) :
    Except String String × List String :=
  match outcome with
  | .ok t => (.ok t.trim, [])
  | .error e => (.error e, [])

/-- Per-candidate visibility budget used by `HomePage._get_active_search_box`:
each of the three `is_visible_slow` calls passes `timeout=2000`. -/
def SEARCH_BOX_CANDIDATE_TIMEOUT : Nat := 2000

/-- The message of the exception `_get_active_search_box` raises when every
candidate strategy failed. -/
def SEARCH_BOX_ERROR : String := "❌ Search box not found with any strategy!"

/-- Observable effect of one `_get_active_search_box` call: the index of the
returned candidate locator (0 = `data-test-id` selector, 1 = `name`
attribute, 2 = placeholder pattern) or the raised exception's message, the
number of `is_visible_slow` checks evaluated, and the screenshot names
attempted. -/
structure ResolveEffect where
  result : Except String Nat
  checks : Nat
  screenshots : List String

/-- Embedding of `HomePage._get_active_search_box`: try the three candidate
locators in order with a 2000 ms `is_visible_slow` each, returning the first
visible one; if none is visible, take one screenshot named
`search_box_missing` and raise.  `env i` is the wait outcome for candidate
`i` (only indices 0, 1, 2 are consulted). -/
def get_active_search_box (env : Nat → WaitOutcome) : ResolveEffect :=
  if is_visible_slow SEARCH_BOX_CANDIDATE_TIMEOUT (env 0) then
    { result := .ok 0, checks := 1, screenshots := [] }
  else if is_visible_slow SEARCH_BOX_CANDIDATE_TIMEOUT (env 1) then
    { result := .ok 1, checks := 2, screenshots := [] }
  else if is_visible_slow SEARCH_BOX_CANDIDATE_TIMEOUT (env 2) then
    { result := .ok 2, checks := 3, screenshots := [] }
  else
    { result := .error SEARCH_BOX_ERROR
      checks := 3
      screenshots := ["search_box_missing"] }

/-- A state of Python's `random` module, stepped as a simple congruential
generator; only the facts that `randint` is a function of the state and that
its result lies in the requested closed range matter to the claims. -/
structure PyRandState where
  seed : Nat

/-- Advance the generator state. -/
def PyRandState.next (s : PyRandState) : PyRandState :=
  ⟨(1103515245 * s.seed + 12345) % 2147483648⟩

/-- `random.randint(lo, hi)`: a value in the closed interval `[lo, hi]`,
together with the advanced generator state. -/
def randint (lo hi : Nat) (s : PyRandState) : Nat × PyRandState :=
  (lo + s.seed % (hi + 1 - lo), s.next)

/-- Embedding of the frozen dataclass `TimeoutConfig` from
`src/config/settings.py` (all values in milliseconds). -/
structure TimeoutConfig where
  DEFAULT_TIMEOUT : Nat
  TYPING_TIMEOUT : Nat
  SHORT13_TIMEOUT : Nat
  SHORT24_TIMEOUT : Nat
  LONG_TIMEOUT : Nat
  PAGE_LOAD_TIMEOUT : Nat
  ELEMENT_TIMEOUT : Nat

/-- The class-level field defaults of `TimeoutConfig`.  In Python, a dataclass
default expression such as `TYPING_TIMEOUT: int = random.randint(300, 500)` is
evaluated exactly once, when the class body runs at module import; the three
`randint` calls therefore consume the import-time generator state
`importRand` and their results are baked into the class object. -/
def timeoutClassDefaults (importRand : PyRandState) : TimeoutConfig :=
  let (typing, r1) := randint 300 500 importRand
  let (short13, r2) := randint 1000 3000 r1
  let (short24, _) := randint 2000 4000 r2
  { DEFAULT_TIMEOUT := 30000
    TYPING_TIMEOUT := typing
    SHORT13_TIMEOUT := short13
    SHORT24_TIMEOUT := short24
    LONG_TIMEOUT := 60000
    PAGE_LOAD_TIMEOUT := 45000
    ELEMENT_TIMEOUT := 10000 }

/-- A `TimeoutConfig()` instantiation at some later point of the process (as
`Settings.__init__` performs): all fields take the class-level defaults, so
the generator state at call time, `callRand`, is never consulted. -/
def mkTimeoutConfig (importRand : PyRandState) (callRand : PyRandState) :
    TimeoutConfig :=
  timeoutClassDefaults importRand

/-- Whether `pat` occurs at the start of `l` (character lists). -/
def charsHavePre : List Char → List Char → Bool
  | [], _ => true
  | _ :: _, [] => false
  | p :: ps, c :: cs => p == c && charsHavePre ps cs

/-- Whether `pat` occurs anywhere inside `l` (character lists). -/
def charsHaveSub (pat : List Char) : List Char → Bool
  | [] => charsHavePre pat []
  | c :: cs => charsHavePre pat (c :: cs) || charsHaveSub pat cs

/-- Whether the string `pat` occurs as a contiguous substring of `s`. -/
def strHasSub (s pat : String) : Bool :=
  charsHaveSub pat.data s.data

/-- A server that answers every attempt with `503 Service Unavailable`. -/
def srv503 : Nat → Response :=
  fun _ => { status := 503, reason := "Service Unavailable" }

/-- A server that answers every attempt with `200 OK`. -/
def srv200 : Nat → Response :=
  fun _ => { status := 200, reason := "OK" }

/-- A page state in which candidate 0 stays hidden and candidate 1 becomes
visible within its budget. -/
def envSecondVisible : Nat → WaitOutcome :=
  fun n => if n = 1 then .visible else .waitError "hidden"

/-- A page state in which no candidate ever becomes visible. -/
def envNoneVisible : Nat → WaitOutcome :=
  fun _ => .waitError "Timeout 2000ms exceeded"

/-! ## Claim C1 -/

/-- C1 (counterexample): the claim "`success` is true iff
`200 <= status_code < 300`" fails on the code.  `_process_response` sets
`success = response.ok`, and `requests.Response.ok` is true for every status
outside `[400, 600)` — so a real `304 Not Modified` response yields
`success = true` although `304` is not in the 2xx range. -/
theorem C1_counterexample :
    (process_response { status := 304, reason := "Not Modified" }).success = true
    ∧ ¬(200 ≤ (process_response { status := 304, reason := "Not Modified" }).status_code
        ∧ (process_response { status := 304, reason := "Not Modified" }).status_code < 300) := by
  decide

/-- C1 (amended): for every `APIResponse` produced from a real server response
by `_process_response`, `success` is true iff the status code lies outside
`[400, 600)` (requests' `ok` predicate) — in particular every 2xx response has
`success = true`, but informational and redirect statuses do as well; every
synthetic transport-failure instance built by `_make_request` has
`success = false`, and the synthetic timeout instance has status code 408. -/
theorem C1_success_follows_requests_ok :
    (∀ r : Response,
      (process_response r).success = true ↔ ¬(400 ≤ r.status ∧ r.status < 600))
    ∧ (∀ r : Response, 200 ≤ r.status → r.status < 300 →
        (process_response r).success = true)
    ∧ (∀ e : ReqException, (excToResponse e).success = false)
    ∧ (∀ m : String, (excToResponse (.timeout m)).status_code = 408
        ∧ (excToResponse (.timeout m)).success = false) := by
  refine ⟨fun r => ?_, fun r h₁ h₂ => ?_, fun e => ?_, fun m => ⟨rfl, rfl⟩⟩
  · simp [process_response, Response.ok]
    omega
  · simp [process_response, Response.ok]
    omega
  · cases e <;> rfl

/-- C1 (witness for the amended theorem): instantiated at a concrete `204 No
Content` response, whose normalization has `success = true`. -/
theorem C1_success_follows_requests_ok_witness :
    (process_response { status := 204 }).success = true :=
  C1_success_follows_requests_ok.2.1 { status := 204 } (by decide) (by decide)

/-! ## Claim C10 -/

/-- C10: `_process_response` never leaves `data` absent: an empty body yields
the empty dictionary, and a non-empty body whose JSON parse fails yields
`{"raw_text": t}` with `t` the body truncated to at most 500 characters; the
normalization is a total function, so it never raises. -/
theorem C10_data_never_none :
    ∀ r : Response,
      (process_response r).data ≠ none
      ∧ (r.text = "" → (process_response r).data = some (.dict []))
      ∧ (r.text ≠ "" → r.jsonResult = none →
          (process_response r).data
            = some (.dict [("raw_text", .str (pyTruncate r.text 500))]))
      ∧ (pyTruncate r.text 500).length ≤ 500 := by
  intro r
  refine ⟨?_, fun ht => ?_, fun ht hj => ?_, ?_⟩
  · simp only [process_response]
    split <;> simp
  · simp [process_response, ht]
  · simp [process_response, ht, hj]
  · show (r.text.data.take 500).length ≤ 500
    exact List.length_take_le 500 r.text.data

/-- C10 (witness): instantiated at a concrete response whose body is not valid
JSON; the normalization produces the `raw_text` dictionary. -/
theorem C10_data_never_none_witness :
    (process_response { status := 200, text := "oops" }).data
      = some (.dict [("raw_text", .str (pyTruncate "oops" 500))]) :=
  (C10_data_never_none { status := 200, text := "oops" }).2.2.1
    (by decide) rfl

/-! ## Claim C3 -/

/-- C3: `_make_request` never raises for transport-level failure — the
embedding is a total function into `APIResponse` — and each failure class is
folded into its sentinel: 408 for a timeout, 503 for a connection failure,
500 for any other request exception, always with `success = false`, and with
a non-empty error message whenever the underlying exception has a non-empty
`str(e)` (the timeout and connection branches use constant prefixes that are
non-empty regardless). -/
theorem C3_failures_fold_into_sentinels :
    ∀ e : ReqException, e.msg ≠ "" →
      (make_request (.error e)).status_code = e.sentinel
      ∧ (make_request (.error e)).success = false
      ∧ (make_request (.error e)).error_message ≠ "" := by
  intro e hm
  cases e with
  | timeout m =>
    refine ⟨rfl, rfl, ?_⟩
    show "Request timed out" ≠ ""
    decide
  | connectionError m =>
    refine ⟨rfl, rfl, ?_⟩
    show "Connection failed: " ++ m ≠ ""
    intro h
    have h2 := congrArg String.data h
    rw [String.data_append] at h2
    have h3 : ("Connection failed: ").data = ([] : List Char) :=
      (List.append_eq_nil.mp h2).1
    exact absurd h3 (by decide)
  | requestException m => exact ⟨rfl, rfl, hm⟩

/-- C3 (witness): instantiated at a concrete connection failure, which folds
into the 503 sentinel with `success = false`. -/
theorem C3_failures_fold_into_sentinels_witness :
    (make_request (.error (.connectionError "refused"))).status_code = 503
    ∧ (make_request (.error (.connectionError "refused"))).success = false
    ∧ (make_request (.error (.connectionError "refused"))).error_message ≠ "" :=
  C3_failures_fold_into_sentinels (.connectionError "refused") (by decide)

/-! ## Retry-loop lemmas -/

/-- When the current attempt's status is retryable, one unit of budget is
consumed and the loop moves to the next attempt. -/
theorem urlopenLoop_retry_step (m : String) (srv : Nat → Response) (f a : Nat)
    (h : is_retry m (srv a).status = true) :
    urlopenLoop m srv (f + 1) a = urlopenLoop m srv f (a + 1) := by
  simp [urlopenLoop, h]

/-- When the current attempt's status is retryable and the budget is
exhausted, urllib3 raises `MaxRetryError`, surfaced by requests as a
`RetryError` (a generic `RequestException`). -/
theorem urlopenLoop_retry_exhausted (m : String) (srv : Nat → Response) (a : Nat)
    (h : is_retry m (srv a).status = true) :
    urlopenLoop m srv 0 a
      = (a + 1, .error (.requestException
          ("too many " ++ toString (srv a).status ++ " error responses"))) := by
  simp [urlopenLoop, h]

/-- When the current attempt's status is not retryable, the loop stops at once
and returns that response. -/
theorem urlopenLoop_no_retry (m : String) (srv : Nat → Response) (fuel a : Nat)
    (h : is_retry m (srv a).status = false) :
    urlopenLoop m srv fuel a = (a + 1, .ok (srv a)) := by
  cases fuel <;> simp [urlopenLoop, h]

/-- The loop always makes at least one and at most `fuel + 1` further
attempts beyond the `a` already made. -/
theorem urlopenLoop_attempts_bounds (m : String) (srv : Nat → Response) :
    ∀ fuel a : Nat,
      a + 1 ≤ (urlopenLoop m srv fuel a).1
      ∧ (urlopenLoop m srv fuel a).1 ≤ a + fuel + 1 := by
  intro fuel
  induction fuel with
  | zero =>
    intro a
    simp only [urlopenLoop]
    split <;> simp
  | succ f ih =>
    intro a
    simp only [urlopenLoop]
    split
    · have := ih (a + 1)
      omega
    · simp

/-! ## Claim C2 -/

/-- C2 (counterexample): against a server that consistently returns 503, the
session performs exactly 4 attempts — but the caller does *not* receive the
final 503 `APIResponse`.  Because `_create_session` leaves the `Retry`
strategy's `raise_on_status` at its default, exhausting the status retries
raises `RetryError`, which `_make_request`'s generic `RequestException` branch
folds into a synthetic 500. -/
theorem C2_counterexample :
    (session_request "GET" srv503).1 = 4
    ∧ (make_request (session_request "GET" srv503).2).status_code = 500
    ∧ (make_request (session_request "GET" srv503).2).status_code ≠ 503 := by
  decide

/-- C2 (amended): with `RETRY_STATUS_CODES = [429, 500, 502, 503, 504]` and
`MAX_RETRIES = 3`, a single `request` call against a server that consistently
returns 503 performs exactly `1 + MAX_RETRIES = 4` HTTP attempts, after which
the caller receives one synthetic `APIResponse` with status code 500,
`success = false` and a non-empty retry-exhaustion error message (not the
final 503 response); the retries themselves are invisible to the caller, who
sees only this single final outcome. -/
theorem C2_retry_exhaustion_behaviour :
    ∀ srv : Nat → Response, (∀ n, (srv n).status = 503) →
      (session_request "GET" srv).1 = MAX_RETRIES + 1
      ∧ (make_request (session_request "GET" srv).2).status_code = 500
      ∧ (make_request (session_request "GET" srv).2).success = false
      ∧ (make_request (session_request "GET" srv).2).error_message ≠ "" := by
  intro srv h
  have hr : ∀ n, is_retry "GET" (srv n).status = true := by
    intro n
    rw [h n]
    decide
  have e3 : urlopenLoop "GET" srv 3 0 = urlopenLoop "GET" srv 2 1 :=
    urlopenLoop_retry_step "GET" srv 2 0 (hr 0)
  have e2 : urlopenLoop "GET" srv 2 1 = urlopenLoop "GET" srv 1 2 :=
    urlopenLoop_retry_step "GET" srv 1 1 (hr 1)
  have e1 : urlopenLoop "GET" srv 1 2 = urlopenLoop "GET" srv 0 3 :=
    urlopenLoop_retry_step "GET" srv 0 2 (hr 2)
  have e0 := urlopenLoop_retry_exhausted "GET" srv 3 (hr 3)
  have final : session_request "GET" srv
      = (4, .error (.requestException
          ("too many " ++ toString 503 ++ " error responses"))) := by
    show urlopenLoop "GET" srv 3 0 = _
    rw [e3, e2, e1, e0, h 3]
  refine ⟨?_, ?_, ?_, ?_⟩
  · rw [final]
    rfl
  · rw [final]
    rfl
  · rw [final]
    rfl
  · rw [final]
    show ("too many " ++ toString 503 ++ " error responses") ≠ ""
    decide

/-- C2 (witness for the amended theorem): instantiated at the concrete
always-503 server. -/
theorem C2_retry_exhaustion_behaviour_witness :
    (session_request "GET" srv503).1 = MAX_RETRIES + 1
    ∧ (make_request (session_request "GET" srv503).2).success = false :=
  ⟨(C2_retry_exhaustion_behaviour srv503 (fun _ => rfl)).1,
   (C2_retry_exhaustion_behaviour srv503 (fun _ => rfl)).2.2.1⟩

/-! ## Claim C6 -/

/-- C6 (counterexample): `download_file` does participate in the retry
sub-protocol — it issues its GET on the same session whose adapters carry the
`Retry` strategy, so against an always-503 URL one call makes 4 HTTP
attempts, not a single one (and returns `false`). -/
theorem C6_counterexample :
    download_file srv503 true = (false, 4)
    ∧ (download_file srv503 true).2 ≠ 1 := by
  decide

/-- C6 (amended): `download_file` returns a boolean for every input — it
returns `true` exactly when the session call succeeded with a non-error
status and every chunk write succeeded, and `false` on any failure rather
than propagating an exception; but each call goes through the session's
retry adapter, so it makes between 1 and `MAX_RETRIES + 1` HTTP attempts,
collapsing to a single attempt only when the first response's status is not
retryable. -/
theorem C6_download_total_but_retried :
    ∀ (srv : Nat → Response) (writeOk : Bool),
      ((download_file srv writeOk).1 = true
        ↔ ∃ r, (session_request "GET" srv).2 = .ok r
            ∧ ¬(400 ≤ r.status ∧ r.status < 600) ∧ writeOk = true)
      ∧ 1 ≤ (download_file srv writeOk).2
      ∧ (download_file srv writeOk).2 ≤ MAX_RETRIES + 1
      ∧ (is_retry "GET" (srv 0).status = false →
          (download_file srv writeOk).2 = 1) := by
  intro srv w
  have hb := urlopenLoop_attempts_bounds "GET" srv MAX_RETRIES 0
  rcases hsr : session_request "GET" srv with ⟨k, out⟩
  have hk : k = (session_request "GET" srv).1 := by rw [hsr]
  refine ⟨?_, ?_, ?_, ?_⟩
  · cases out with
    | error e => simp [download_file, hsr]
    | ok r =>
      by_cases hc : 400 ≤ r.status ∧ r.status < 600
      · simp [download_file, hsr, hc]
      · simp [download_file, hsr, hc]
        intro _
        omega
  · have : 1 ≤ k := by
      rw [hk]
      exact hb.1
    cases out with
    | error e => simpa [download_file, hsr] using this
    | ok r =>
      by_cases hc : 400 ≤ r.status ∧ r.status < 600
      · simpa [download_file, hsr, hc] using this
      · simpa [download_file, hsr, hc] using this
  · have : k ≤ MAX_RETRIES + 1 := by
      rw [hk]
      simpa using hb.2
    cases out with
    | error e => simpa [download_file, hsr] using this
    | ok r =>
      by_cases hc : 400 ≤ r.status ∧ r.status < 600
      · simpa [download_file, hsr, hc] using this
      · simpa [download_file, hsr, hc] using this
  · intro hnr
    have hone : session_request "GET" srv = (1, .ok (srv 0)) :=
      urlopenLoop_no_retry "GET" srv MAX_RETRIES 0 hnr
    rw [hsr] at hone
    cases hone
    by_cases hc : 400 ≤ (srv 0).status ∧ (srv 0).status < 600
    · simp [download_file, hsr, hc]
    · simp [download_file, hsr, hc]

/-- C6 (witness for the amended theorem): against an always-200 server a
download makes exactly one HTTP attempt. -/
theorem C6_download_total_but_retried_witness :
    (download_file srv200 true).2 = 1 :=
  (C6_download_total_but_retried srv200 true).2.2.2 (by decide)

/-! ## Claim C4 -/

/-- C4: whenever some candidate becomes visible within its per-candidate
budget and every earlier candidate does not, `_get_active_search_box` returns
exactly that candidate, evaluates no later candidate (the number of
`is_visible_slow` checks is the winning index plus one), and attempts no
screenshot. -/
theorem C4_first_visible_candidate_wins :
    ∀ (env : Nat → WaitOutcome) (i : Nat), i < 3 →
      is_visible_slow SEARCH_BOX_CANDIDATE_TIMEOUT (env i) = true →
      (∀ j, j < i → is_visible_slow SEARCH_BOX_CANDIDATE_TIMEOUT (env j) = false) →
      (get_active_search_box env).result = .ok i
      ∧ (get_active_search_box env).checks = i + 1
      ∧ (get_active_search_box env).screenshots = [] := by
  intro env i hi3 hvis hfirst
  interval_cases i
  · refine ⟨?_, ?_, ?_⟩ <;> simp [get_active_search_box, hvis]
  · have h0 := hfirst 0 (by omega)
    refine ⟨?_, ?_, ?_⟩ <;> simp [get_active_search_box, h0, hvis]
  · have h0 := hfirst 0 (by omega)
    have h1 := hfirst 1 (by omega)
    refine ⟨?_, ?_, ?_⟩ <;> simp [get_active_search_box, h0, h1, hvis]

/-- C4 (witness): with candidate 0 hidden and candidate 1 visible the
resolver returns candidate 1 after exactly two checks. -/
theorem C4_first_visible_candidate_wins_witness :
    (get_active_search_box envSecondVisible).result = .ok 1
    ∧ (get_active_search_box envSecondVisible).checks = 2
    ∧ (get_active_search_box envSecondVisible).screenshots = [] :=
  C4_first_visible_candidate_wins envSecondVisible 1 (by omega) (by rfl)
    (fun j hj => by interval_cases j; rfl)

/-! ## Claim C5 -/

/-- C5 (counterexample): when no candidate becomes visible the resolver does
fail after exactly one screenshot attempt, but the raised message
"❌ Search box not found with any strategy!" names only the logical element —
it does not name the exhausted timeout budget (neither the 2000 ms
per-candidate budget nor the 6000 ms total appears in it). -/
theorem C5_counterexample :
    (get_active_search_box envNoneVisible).result = .error SEARCH_BOX_ERROR
    ∧ strHasSub SEARCH_BOX_ERROR "2000" = false
    ∧ strHasSub SEARCH_BOX_ERROR "6000" = false
    ∧ (get_active_search_box envNoneVisible).screenshots.length = 1 :=
  ⟨rfl, by decide, by decide, rfl⟩

/-- C5 (amended): when none of the candidates becomes visible within its
budget, `_get_active_search_box` raises an exception whose message names the
logical element ("Search box"), and exactly one diagnostic screenshot attempt
(named `search_box_missing`) is made before the exception is raised; the
message does not mention the exhausted timeout budget. -/
theorem C5_all_hidden_raises_after_one_screenshot :
    ∀ env : Nat → WaitOutcome,
      (∀ i, i < 3 → is_visible_slow SEARCH_BOX_CANDIDATE_TIMEOUT (env i) = false) →
      (get_active_search_box env).result = .error SEARCH_BOX_ERROR
      ∧ (get_active_search_box env).screenshots = ["search_box_missing"]
      ∧ strHasSub SEARCH_BOX_ERROR "Search box" = true
      ∧ strHasSub SEARCH_BOX_ERROR (toString SEARCH_BOX_CANDIDATE_TIMEOUT) = false := by
  intro env h
  have h0 := h 0 (by omega)
  have h1 := h 1 (by omega)
  have h2 := h 2 (by omega)
  exact ⟨by simp [get_active_search_box, h0, h1, h2],
         by simp [get_active_search_box, h0, h1, h2],
         by decide, by decide⟩

/-- C5 (witness for the amended theorem): instantiated at the concrete
all-hidden page state. -/
theorem C5_all_hidden_raises_after_one_screenshot_witness :
    (get_active_search_box envNoneVisible).result = .error SEARCH_BOX_ERROR
    ∧ (get_active_search_box envNoneVisible).screenshots = ["search_box_missing"] :=
  ⟨(C5_all_hidden_raises_after_one_screenshot envNoneVisible (fun _ _ => rfl)).1,
   (C5_all_hidden_raises_after_one_screenshot envNoneVisible (fun _ _ => rfl)).2.1⟩

/-! ## Claim C7 -/

/-- C7: when the underlying click fails, the wrapper attempts exactly one
screenshot whose path is built from the description and the failure
timestamp, logs the failure, and re-raises the original exception unchanged;
`fill` and `get_text` propagate failures without any screenshot attempt. -/
theorem C7_click_captures_fill_does_not :
    ∀ (description text e ts : String),
      (click description (.error e) ts).result = .error e
      ∧ (click description (.error e) ts).screenshots
          = [screenshot_path ("fail_click_" ++ description) ts]
      ∧ ("❌ Failed to click '" ++ description ++ "': " ++ e)
          ∈ (click description (.error e) ts).logs
      ∧ (fill text description (.error e)).result = .error e
      ∧ (fill text description (.error e)).screenshots = []
      ∧ (get_text description (.error e)).1 = .error e
      ∧ (get_text description (.error e)).2 = [] := by
  intro d t e ts
  refine ⟨rfl, rfl, ?_, rfl, rfl, rfl, rfl⟩
  simp [click]

/-! ## Claim C8 -/

/-- C8: `is_visible_slow` is a total boolean function of the bounded wait's
outcome — it returns `true` exactly when the element became visible within
the timeout, and `false` when the wait timed out or failed in any other way,
never propagating the underlying exception. -/
theorem C8_is_visible_slow_swallows_failure :
    ∀ (timeout : Nat) (w : WaitOutcome),
      (is_visible_slow timeout w = true ↔ w = .visible)
      ∧ (∀ m, is_visible_slow timeout (.waitError m) = false) := by
  intro t w
  refine ⟨?_, fun m => rfl⟩
  cases w <;> simp [is_visible_slow]

/-! ## Claim C9 -/

/-- C9: every field of `TimeoutConfig` lies in the 300 ms – 60 s range, the
randomized budgets lie in their advertised ranges, and — because the
dataclass default expressions run exactly once, at class-definition time —
every `TimeoutConfig()` instantiation within one process yields the same
values regardless of the generator state at call time. -/
theorem C9_timeouts_fixed_per_process_and_bounded :
    ∀ (importRand callRand callRand' : PyRandState),
      mkTimeoutConfig importRand callRand = mkTimeoutConfig importRand callRand'
      ∧ (mkTimeoutConfig importRand callRand).DEFAULT_TIMEOUT = 30000
      ∧ (mkTimeoutConfig importRand callRand).LONG_TIMEOUT = 60000
      ∧ (mkTimeoutConfig importRand callRand).PAGE_LOAD_TIMEOUT = 45000
      ∧ (mkTimeoutConfig importRand callRand).ELEMENT_TIMEOUT = 10000
      ∧ 300 ≤ (mkTimeoutConfig importRand callRand).TYPING_TIMEOUT
      ∧ (mkTimeoutConfig importRand callRand).TYPING_TIMEOUT ≤ 500
      ∧ 1000 ≤ (mkTimeoutConfig importRand callRand).SHORT13_TIMEOUT
      ∧ (mkTimeoutConfig importRand callRand).SHORT13_TIMEOUT ≤ 3000
      ∧ 2000 ≤ (mkTimeoutConfig importRand callRand).SHORT24_TIMEOUT
      ∧ (mkTimeoutConfig importRand callRand).SHORT24_TIMEOUT ≤ 4000
      ∧ (∀ f ∈ [(mkTimeoutConfig importRand callRand).DEFAULT_TIMEOUT,
                (mkTimeoutConfig importRand callRand).TYPING_TIMEOUT,
                (mkTimeoutConfig importRand callRand).SHORT13_TIMEOUT,
                (mkTimeoutConfig importRand callRand).SHORT24_TIMEOUT,
                (mkTimeoutConfig importRand callRand).LONG_TIMEOUT,
                (mkTimeoutConfig importRand callRand).PAGE_LOAD_TIMEOUT,
                (mkTimeoutConfig importRand callRand).ELEMENT_TIMEOUT],
          300 ≤ f ∧ f ≤ 60000) := by
  intro ir c c'
  have h1 : ir.seed % 201 < 201 := Nat.mod_lt _ (by omega)
  have h2 : ir.next.seed % 2001 < 2001 := Nat.mod_lt _ (by omega)
  have h3 : ir.next.next.seed % 2001 < 2001 := Nat.mod_lt _ (by omega)
  have hT : mkTimeoutConfig ir c =
      { DEFAULT_TIMEOUT := 30000
        TYPING_TIMEOUT := 300 + ir.seed % 201
        SHORT13_TIMEOUT := 1000 + ir.next.seed % 2001
        SHORT24_TIMEOUT := 2000 + ir.next.next.seed % 2001
        LONG_TIMEOUT := 60000
        PAGE_LOAD_TIMEOUT := 45000
        ELEMENT_TIMEOUT := 10000 } := rfl
  refine ⟨rfl, rfl, rfl, rfl, rfl, ?_, ?_, ?_, ?_, ?_, ?_, ?_⟩
  · rw [hT]
    show 300 ≤ 300 + ir.seed % 201
    omega
  · rw [hT]
    show 300 + ir.seed % 201 ≤ 500
    omega
  · rw [hT]
    show 1000 ≤ 1000 + ir.next.seed % 2001
    omega
  · rw [hT]
    show 1000 + ir.next.seed % 2001 ≤ 3000
    omega
  · rw [hT]
    show 2000 ≤ 2000 + ir.next.next.seed % 2001
    omega
  · rw [hT]
    show 2000 + ir.next.next.seed % 2001 ≤ 4000
    omega
  · intro f hf
    rw [hT] at hf
    simp at hf
    omega

/-- C9 (witness): instantiated at concrete generator states; the typing
budget of the resulting configuration lies in the 300 ms – 60 s range. -/
theorem C9_timeouts_fixed_per_process_and_bounded_witness :
    300 ≤ (mkTimeoutConfig ⟨0⟩ ⟨1⟩).TYPING_TIMEOUT
    ∧ (mkTimeoutConfig ⟨0⟩ ⟨1⟩).TYPING_TIMEOUT ≤ 60000 :=
  (C9_timeouts_fixed_per_process_and_bounded ⟨0⟩ ⟨1⟩ ⟨2⟩).2.2.2.2.2.2.2.2.2.2.2
    ((mkTimeoutConfig ⟨0⟩ ⟨1⟩).TYPING_TIMEOUT) (by simp)

end PinterestDemo
